import Mathlib

/-!
Shallow embedding of `src/caret_demos/src/end_to_end_sample.cpp`.

The program is a small ROS 2 dataflow demo with five node classes
(`SensorDummy`, `NoDependencyNode`, `SubDependencyNode`,
`TimerDependencyNode`, `ActuatorDummy`) connected through topics, plus a
latency sampler `lognormal_distribution()`.

Each callback body is embedded as a pure function from the node's private
state (its `msg_` slot, when it has one) and the callback's inputs to the
new state together with the list of observable effects it performs, in
order (sleeping for a sampled latency, publishing a message).  The random
latency draw is passed in as a parameter, since the C++ code obtains it
nondeterministically from a random engine.
-/

set_option linter.unusedVariables false

namespace EndToEndSample

/-- A ROS timestamp (builtin_interfaces/Time carried in the Image header). -/
structure Time where
  sec : Int
  nanosec : Nat
deriving DecidableEq, Repr

/-- Embedding of `sensor_msgs::msg::Image`: the header timestamp plus the
remaining payload, treated as opaque bytes. -/
structure Image where
  stamp : Time
  data : List Nat
deriving DecidableEq, Repr

/-- A default-constructed `sensor_msgs::msg::Image` (as produced by
`std::make_unique<sensor_msgs::msg::Image>()`): zero timestamp, empty data. -/
def Image.mkDefault : Image := { stamp := { sec := 0, nanosec := 0 }, data := [] }

/-- Observable effects a callback body performs, in program order. -/
inductive Effect where
  | sleep (ms : Int)
  | publish (topic : String) (msg : Image)
deriving DecidableEq, Repr

/-- Whether an effect is a suspension (`rclcpp::sleep_for`). -/
def Effect.isSleep : Effect → Bool
  | .sleep _ => true
  | .publish _ _ => false

/-- The messages published by a list of effects, in order. -/
def publishedMsgs (effects : List Effect) : List Image :=
  effects.filterMap fun e => match e with
    | .publish _ m => some m
    | .sleep _ => none

/-! ## LatencySampler (`lognormal_distribution`, lines 13-23)

The C++ function draws `dist(engine)` from a log-normal distribution
(support: the strictly positive reals), takes `std::min` with
`max_latency_ms = 150`, and assigns the resulting `double` to an `int`,
which truncates toward zero.  We model the draw as a strictly positive
rational passed in as a parameter and embed the deterministic
post-processing faithfully. -/

/-- C++ `double` to `int` conversion: truncation toward zero. -/
def cppTruncToInt (x : ℚ) : Int := if 0 ≤ x then ⌊x⌋ else ⌈x⌉

/-- The clamp bound `max_latency_ms` (line 18). -/
def max_latency_ms : ℚ := 150

/-- Embedding of `lognormal_distribution()` (lines 13-23): given the raw
draw from the underlying distribution, returns the sleep duration in
milliseconds, namely `int sleep_ms = std::min(dist(engine), max_latency_ms)`. -/
def lognormal_distribution (draw : ℚ) : Int :=
  cppTruncToInt (min draw max_latency_ms)

/-! ## ActuatorDummy (lines 60-77)

Its subscription callback body is `(void)msg;`: the message is discarded,
nothing else happens.  There is no sleep and no publish in the body. -/

namespace ActuatorDummy

/-- Embedding of the `ActuatorDummy` subscription callback (lines 68-71):
the body is `(void)msg;`, so it performs no effects at all. -/
def subscription_callback (msg : Image) : List Effect := []

end ActuatorDummy

/-! ## NoDependencyNode (lines 79-97)

Its subscription callback sleeps for a sampled latency, then republishes
the received message unchanged via `pub_->publish(std::move(msg))`. -/

namespace NoDependencyNode

/-- Embedding of the `NoDependencyNode` subscription callback (lines 87-91):
sleep for the sampled latency, then publish the received message, moved
unchanged, to the output topic. -/
def subscription_callback (pub_topic : String) (lat : Int) (msg : Image) :
    List Effect :=
  [.sleep lat, .publish pub_topic msg]

end NoDependencyNode

/-! ## SensorDummy (lines 137-157)

Its timer callback default-constructs a message, sets its header stamp to
`now()`, and publishes it.  No latency is sampled and no sleep occurs. -/

namespace SensorDummy

/-- Embedding of the `SensorDummy` timer callback (lines 145-149): build a
fresh default message, stamp it with the current time, publish it. -/
def timer_callback (topic : String) (t : Time) : List Effect :=
  [.publish topic { Image.mkDefault with stamp := t }]

end SensorDummy

/-! ## TimerDependencyNode (lines 25-58)

Private state: `sensor_msgs::msg::Image::UniquePtr msg_`, initially null.
Its subscription callback sleeps, then stores the received message in
`msg_`.  Its timer callback sleeps, then, if `msg_` is non-null, publishes
`*msg_` (a copy: `msg_` itself is left unchanged). -/

namespace TimerDependencyNode

/-- Embedding of the `TimerDependencyNode` subscription callback
(lines 36-40): sleep for the sampled latency, then `msg_ = std::move(msg)`. -/
def subscription_callback (lat : Int) (msg : Image) (msg_ : Option Image) :
    Option Image × List Effect :=
  (some msg, [.sleep lat])

/-- Embedding of the `TimerDependencyNode` timer callback (lines 44-50):
sleep for the sampled latency, then publish `*msg_` when `msg_` is
non-null.  Publishing dereferences the pointer, so `msg_` keeps its value. -/
def timer_callback (pub_topic : String) (lat : Int) (msg_ : Option Image) :
    Option Image × List Effect :=
  match msg_ with
  | some m => (some m, [.sleep lat, .publish pub_topic m])
  | none => (none, [.sleep lat])

/-- The callback invocations the executor can dispatch on this node, each
carrying the latency its `lognormal_distribution()` call sampled. -/
inductive Event where
  | recv (lat : Int) (msg : Image)
  | tick (lat : Int)
deriving DecidableEq, Repr

/-- Whether an event is a message arrival on the node's subscription. -/
def Event.isRecv : Event → Bool
  | .recv _ _ => true
  | .tick _ => false

/-- Dispatch one callback invocation on the node's state. -/
def step (pub_topic : String) (msg_ : Option Image) : Event → Option Image × List Effect
  | .recv lat msg => subscription_callback lat msg msg_
  | .tick lat => timer_callback pub_topic lat msg_

/-- Run a sequence of callback invocations from a given state, returning
the final state and all effects in order. -/
def run (pub_topic : String) (msg_ : Option Image) :
    List Event → Option Image × List Effect
  | [] => (msg_, [])
  | e :: es =>
    let r := step pub_topic msg_ e
    let rest := run pub_topic r.1 es
    (rest.1, r.2 ++ rest.2)

/-- The message carried by the last `recv` event of a trace, if any. -/
def lastReceived : List Event → Option Image
  | [] => none
  | e :: es =>
    match lastReceived es with
    | some m => some m
    | none =>
      match e with
      | .recv _ m => some m
      | .tick _ => none

end TimerDependencyNode

/-! ## SubDependencyNode (lines 99-135)

Private state: `sensor_msgs::msg::Image::UniquePtr msg_`, initially null.
Its first (primary) subscription callback copies the stamp into a local
temporary (discarded), sleeps, then stores the received message in `msg_`.
Its second (trigger) subscription callback discards its own argument,
sleeps, then, if `msg_` is non-null, publishes `std::move(msg_)` — moving
out of the unique pointer nulls `msg_`, so the slot is cleared. -/

namespace SubDependencyNode

/-- Embedding of the `SubDependencyNode` primary subscription callback
(lines 111-117): build a local temporary carrying the stamp (no observable
effect), sleep, then `msg_ = std::move(msg)`. -/
def subscription1_callback (lat : Int) (msg : Image) (msg_ : Option Image) :
    Option Image × List Effect :=
  (some msg, [.sleep lat])

/-- Embedding of the `SubDependencyNode` trigger subscription callback
(lines 119-126): discard the trigger message `(void)msg;`, sleep, then
publish `std::move(msg_)` when `msg_` is non-null, which nulls `msg_`. -/
def subscription2_callback (pub_topic : String) (lat : Int) (trig_msg : Image)
    (msg_ : Option Image) : Option Image × List Effect :=
  match msg_ with
  | some m => (none, [.sleep lat, .publish pub_topic m])
  | none => (none, [.sleep lat])

/-- The callback invocations the executor can dispatch on this node. -/
inductive Event where
  | prim (lat : Int) (msg : Image)
  | trig (lat : Int) (msg : Image)
deriving DecidableEq, Repr

/-- Whether an event is a primary-input (first subscription) arrival. -/
def Event.isPrim : Event → Bool
  | .prim _ _ => true
  | .trig _ _ => false

/-- Dispatch one callback invocation on the node's state. -/
def step (pub_topic : String) (msg_ : Option Image) : Event → Option Image × List Effect
  | .prim lat msg => subscription1_callback lat msg msg_
  | .trig lat msg => subscription2_callback pub_topic lat msg msg_

/-- Run a sequence of callback invocations from a given state, returning
the final state and all effects in order. -/
def run (pub_topic : String) (msg_ : Option Image) :
    List Event → Option Image × List Effect
  | [] => (msg_, [])
  | e :: es =>
    let r := step pub_topic msg_ e
    let rest := run pub_topic r.1 es
    (rest.1, r.2 ++ rest.2)

/-- Two events are equal up to the trigger message payload: identical
constructors and latencies, identical primary payloads, arbitrary trigger
payloads. -/
def trigPayloadAgnostic : Event → Event → Prop
  | .prim l m, .prim l' m' => l = l' ∧ m = m'
  | .trig l _, .trig l' _ => l = l'
  | _, _ => False

end SubDependencyNode

/-! ## main (lines 159-185)

The entry point builds six node instances, hands them to a
multi-threaded executor, spins until shutdown, and returns 0. -/

/-- A node instance as constructed in `main`, tagged by its class and
carrying the constructor arguments. -/
inductive NodeSpec where
  | actuator (name : String) (sub_topic : String)
  | noDependency (name : String) (sub_topic : String) (pub_topic : String)
  | subDependency (name : String) (sub_topic : String)
      (subsequent_sub_topic : String) (pub_topic : String)
  | timerDependency (name : String) (sub_topic : String) (pub_topic : String)
      (period_ms : Nat)
  | sensor (name : String) (topic : String) (period_ms : Nat)
deriving DecidableEq, Repr

/-- The node's name. -/
def NodeSpec.name : NodeSpec → String
  | .actuator n _ => n
  | .noDependency n _ _ => n
  | .subDependency n _ _ _ => n
  | .timerDependency n _ _ _ => n
  | .sensor n _ _ => n

/-- The topics the node subscribes to, in declaration order (for
`subDependency`: primary input first, trigger input second). -/
def NodeSpec.subTopics : NodeSpec → List String
  | .actuator _ s => [s]
  | .noDependency _ s _ => [s]
  | .subDependency _ s1 s2 _ => [s1, s2]
  | .timerDependency _ s _ _ => [s]
  | .sensor _ _ _ => []

/-- The topics the node publishes to. -/
def NodeSpec.pubTopics : NodeSpec → List String
  | .actuator _ _ => []
  | .noDependency _ _ p => [p]
  | .subDependency _ _ _ p => [p]
  | .timerDependency _ _ p _ => [p]
  | .sensor _ p _ => [p]

/-- The node's wall-timer period in milliseconds, if it has a timer. -/
def NodeSpec.timerPeriodMs : NodeSpec → Option Nat
  | .actuator _ _ => none
  | .noDependency _ _ _ => none
  | .subDependency _ _ _ _ => none
  | .timerDependency _ _ _ p => some p
  | .sensor _ _ p => some p

/-- The `nodes` vector assembled in `main` (lines 167-175), in
`emplace_back` order, with the exact constructor arguments. -/
def mainNodes : List NodeSpec :=
  [ .actuator "actuator_dummy_node" "/topic4",
    .noDependency "filter_node" "/topic1" "/topic2",
    .subDependency "message_driven_node" "/topic2" "/drive" "/topic3",
    .timerDependency "timer_driven_node" "/topic3" "/topic4" 100,
    .sensor "sensor_dummy_node" "/topic1" 50,
    .sensor "drive_node" "/drive" 100 ]

/-- The value `main` returns after `executor->spin()` comes back and
`rclcpp::shutdown()` runs (line 184). -/
def mainReturn : Int := 0

/-- The node of `mainNodes` with the given name, if any. -/
def nodeNamed (n : String) : Option NodeSpec :=
  mainNodes.find? fun x => x.name == n

/-! ## Helper lemmas -/

namespace TimerDependencyNode

/-- The timer callback never changes the `msg_` slot. -/
lemma timer_callback_fst (pub_topic : String) (lat : Int) (msg_ : Option Image) :
    (timer_callback pub_topic lat msg_).1 = msg_ := by
  cases msg_ <;> rfl

/-- After running a trace, the `msg_` slot holds the last received message,
or the initial state when the trace has no arrival. -/
lemma run_fst_eq (pub_topic : String) (msg_ : Option Image) (es : List Event) :
    (run pub_topic msg_ es).1 = (lastReceived es).elim msg_ some := by
  induction es generalizing msg_ with
  | nil => rfl
  | cons e es ih =>
    show (run pub_topic (step pub_topic msg_ e).1 es).1 = _
    rw [ih]
    cases hlast : lastReceived es with
    | some m => simp [lastReceived, hlast]
    | none =>
      cases e with
      | recv lat msg => simp [lastReceived, hlast, step, subscription_callback]
      | tick lat => simp [lastReceived, hlast, step, timer_callback_fst]

/-- A trace with no arrival leaves an empty slot and never publishes. -/
lemma run_no_recv (pub_topic : String) (es : List Event)
    (h : ∀ e ∈ es, e.isRecv = false) :
    (run pub_topic none es).1 = none ∧ publishedMsgs (run pub_topic none es).2 = [] := by
  induction es with
  | nil => exact ⟨rfl, rfl⟩
  | cons e es ih =>
    cases e with
    | recv lat msg => simpa [Event.isRecv] using h _ (List.mem_cons_self _ _)
    | tick lat =>
      have ih2 := ih fun x hx => h x (List.mem_cons_of_mem _ hx)
      show (run pub_topic (step pub_topic none (.tick lat)).1 es).1 = none ∧
        publishedMsgs ((step pub_topic none (.tick lat)).2 ++
          (run pub_topic (step pub_topic none (.tick lat)).1 es).2) = []
      simp only [step, timer_callback, publishedMsgs, List.filterMap_append]
      exact ⟨ih2.1, by simpa [publishedMsgs] using ih2.2⟩

end TimerDependencyNode

namespace SubDependencyNode

/-- A trace with no primary arrival leaves an empty slot and never
publishes. -/
lemma run_no_prim (pub_topic : String) (es : List Event)
    (h : ∀ e ∈ es, e.isPrim = false) :
    (run pub_topic none es).1 = none ∧ publishedMsgs (run pub_topic none es).2 = [] := by
  induction es with
  | nil => exact ⟨rfl, rfl⟩
  | cons e es ih =>
    cases e with
    | prim lat msg => simpa [Event.isPrim] using h _ (List.mem_cons_self _ _)
    | trig lat msg =>
      have ih2 := ih fun x hx => h x (List.mem_cons_of_mem _ hx)
      show (run pub_topic (step pub_topic none (.trig lat msg)).1 es).1 = none ∧
        publishedMsgs ((step pub_topic none (.trig lat msg)).2 ++
          (run pub_topic (step pub_topic none (.trig lat msg)).1 es).2) = []
      simp only [step, subscription2_callback, publishedMsgs, List.filterMap_append]
      exact ⟨ih2.1, by simpa [publishedMsgs] using ih2.2⟩

end SubDependencyNode

/-! ## Claim theorems -/

/-- C1: once a `TimerDependencyNode` has received at least one message, the
`msg_` slot holds exactly the last received message, and every subsequent
timer tick leaves the slot unchanged while publishing that very message
(hence one with the same timestamp) until a new arrival replaces it. -/
theorem timer_consumer_hold_last (pub_topic : String)
    (es : List TimerDependencyNode.Event) (m : Image) (lat : Int)
    (h : TimerDependencyNode.lastReceived es = some m) :
    (TimerDependencyNode.run pub_topic none es).1 = some m ∧
    TimerDependencyNode.step pub_topic (some m) (.tick lat) =
      (some m, [.sleep lat, .publish pub_topic m]) ∧
    (publishedMsgs (TimerDependencyNode.step pub_topic (some m) (.tick lat)).2).map
      Image.stamp = [m.stamp] := by
  refine ⟨?_, rfl, rfl⟩
  rw [TimerDependencyNode.run_fst_eq, h]
  rfl

/-- C1 witness: a concrete trace (tick, receive, tick) whose last received
message is the one published by the next tick, the slot kept intact. -/
theorem timer_consumer_hold_last_witness :
    TimerDependencyNode.lastReceived
      [.tick 2, .recv 5 { stamp := { sec := 7, nanosec := 1 }, data := [3] }, .tick 4] =
      some { stamp := { sec := 7, nanosec := 1 }, data := [3] } ∧
    ((TimerDependencyNode.run "/topic4" none
      [.tick 2, .recv 5 { stamp := { sec := 7, nanosec := 1 }, data := [3] }, .tick 4]).1 =
      some { stamp := { sec := 7, nanosec := 1 }, data := [3] } ∧
    TimerDependencyNode.step "/topic4"
      (some { stamp := { sec := 7, nanosec := 1 }, data := [3] }) (.tick 9) =
      (some { stamp := { sec := 7, nanosec := 1 }, data := [3] },
        [.sleep 9, .publish "/topic4" { stamp := { sec := 7, nanosec := 1 }, data := [3] }]) ∧
    (publishedMsgs (TimerDependencyNode.step "/topic4"
      (some { stamp := { sec := 7, nanosec := 1 }, data := [3] }) (.tick 9)).2).map
      Image.stamp = [({ sec := 7, nanosec := 1 } : Time)]) :=
  ⟨by rfl, timer_consumer_hold_last "/topic4"
    [.tick 2, .recv 5 { stamp := { sec := 7, nanosec := 1 }, data := [3] }, .tick 4]
    { stamp := { sec := 7, nanosec := 1 }, data := [3] } 9 (by rfl)⟩

/-- C2: a `SubDependencyNode` trigger callback that finds a stored message
publishes that message and nulls the `msg_` slot, and after any trigger
callback (from any state) a second trigger callback with no intervening
primary arrival publishes nothing. -/
theorem dual_input_relay_consume_once (pub_topic : String) (m tm tm' : Image)
    (lat lat' : Int) (s : Option Image) :
    SubDependencyNode.subscription2_callback pub_topic lat tm (some m) =
      (none, [.sleep lat, .publish pub_topic m]) ∧
    publishedMsgs (SubDependencyNode.subscription2_callback pub_topic lat' tm'
      (SubDependencyNode.subscription2_callback pub_topic lat tm s).1).2 = [] := by
  refine ⟨rfl, ?_⟩
  cases s <;> rfl

/-- C5: a `TimerDependencyNode` whose trace holds no subscription arrival,
and a `SubDependencyNode` whose trace holds no primary-input arrival, never
publish, however many timer ticks or trigger events fire. -/
theorem no_data_no_publish (pubT pubS : String)
    (esT : List TimerDependencyNode.Event) (esS : List SubDependencyNode.Event)
    (hT : ∀ e ∈ esT, e.isRecv = false) (hS : ∀ e ∈ esS, e.isPrim = false) :
    publishedMsgs (TimerDependencyNode.run pubT none esT).2 = [] ∧
    publishedMsgs (SubDependencyNode.run pubS none esS).2 = [] :=
  ⟨(TimerDependencyNode.run_no_recv pubT esT hT).2,
   (SubDependencyNode.run_no_prim pubS esS hS).2⟩

/-- C5 witness: three ticks and two triggers on empty slots publish
nothing. -/
theorem no_data_no_publish_witness :
    (∀ e ∈ ([.tick 1, .tick 2, .tick 3] : List TimerDependencyNode.Event),
      e.isRecv = false) ∧
    (∀ e ∈ ([.trig 4 Image.mkDefault, .trig 5 Image.mkDefault] :
      List SubDependencyNode.Event), e.isPrim = false) ∧
    (publishedMsgs (TimerDependencyNode.run "/topic4" none
      [.tick 1, .tick 2, .tick 3]).2 = [] ∧
    publishedMsgs (SubDependencyNode.run "/topic3" none
      [.trig 4 Image.mkDefault, .trig 5 Image.mkDefault]).2 = []) :=
  ⟨by decide, by decide,
    no_data_no_publish "/topic4" "/topic3" [.tick 1, .tick 2, .tick 3]
      [.trig 4 Image.mkDefault, .trig 5 Image.mkDefault] (by decide) (by decide)⟩

/-- C3 counterexample: the draw 1/2 is a strictly positive value in the
log-normal distribution's support, yet the sampler returns 0 ms, because
assigning the `double` `min(dist(engine), 150.0)` to `int sleep_ms`
truncates it: the sampled latency is not strictly positive. -/
theorem latency_positive_counterexample :
    (0 : ℚ) < 1/2 ∧
    ¬ (0 < lognormal_distribution (1/2) ∧ lognormal_distribution (1/2) ≤ 150) := by
  have h0 : lognormal_distribution (1/2) = 0 := by
    unfold lognormal_distribution cppTruncToInt max_latency_ms
    rw [min_eq_left (by norm_num), if_pos (by norm_num)]
    rw [Int.floor_eq_zero_iff]
    constructor <;> norm_num
  refine ⟨by norm_num, ?_⟩
  rw [h0]
  simp

/-- C3 (amended): every sampled latency is nonnegative and at most 150 ms;
it can be exactly 0 when the underlying draw is below 1 ms. -/
theorem latency_bounds (draw : ℚ) (h : 0 < draw) :
    0 ≤ lognormal_distribution draw ∧ lognormal_distribution draw ≤ 150 := by
  unfold lognormal_distribution cppTruncToInt max_latency_ms
  have hmin : (0 : ℚ) ≤ min draw 150 := le_min h.le (by norm_num)
  rw [if_pos hmin]
  refine ⟨Int.floor_nonneg.mpr hmin, ?_⟩
  have h2 : (min draw 150 : ℚ) ≤ (150 : ℤ) := by
    exact_mod_cast min_le_right draw 150
  calc ⌊min draw 150⌋ ≤ ⌊((150 : ℤ) : ℚ)⌋ := Int.floor_le_floor h2
    _ = 150 := Int.floor_intCast 150

/-- C3 witness: the bounds hold at the concrete draw 3. -/
theorem latency_bounds_witness :
    (0 : ℚ) < 3 ∧
    (0 ≤ lognormal_distribution 3 ∧ lognormal_distribution 3 ≤ 150) :=
  ⟨by norm_num, latency_bounds 3 (by norm_num)⟩

/-- C4 counterexample: the `ActuatorDummy` callback body is `(void)msg;`,
so on a concrete message arrival it performs no sleep at all — contrary to
the claim that it samples a latency and suspends before discarding. -/
theorem actuator_latency_counterexample :
    ¬ ∃ lat : Int,
      Effect.sleep lat ∈ ActuatorDummy.subscription_callback Image.mkDefault := by
  simp [ActuatorDummy.subscription_callback]

/-- C4 (amended): on every message arrival the `ActuatorDummy` callback
discards the message immediately: it publishes nothing and performs no
latency sampling or suspension (its effect list is empty). -/
theorem actuator_discard (msg : Image) :
    ActuatorDummy.subscription_callback msg = [] ∧
    publishedMsgs (ActuatorDummy.subscription_callback msg) = [] ∧
    (ActuatorDummy.subscription_callback msg).filter Effect.isSleep = [] :=
  ⟨rfl, rfl, rfl⟩

/-- C6: the `NoDependencyNode` callback sleeps for the sampled latency and
then publishes to its output topic exactly the message it received, so the
single published message agrees with the input in timestamp and payload. -/
theorem relay_passthrough (pub_topic : String) (lat : Int) (msg : Image) :
    NoDependencyNode.subscription_callback pub_topic lat msg =
      [.sleep lat, .publish pub_topic msg] ∧
    publishedMsgs (NoDependencyNode.subscription_callback pub_topic lat msg) = [msg] ∧
    (publishedMsgs (NoDependencyNode.subscription_callback pub_topic lat msg)).map
      Image.stamp = [msg.stamp] ∧
    (publishedMsgs (NoDependencyNode.subscription_callback pub_topic lat msg)).map
      Image.data = [msg.data] :=
  ⟨rfl, rfl, rfl, rfl⟩

/-- C7: each `SensorDummy` timer tick publishes exactly one fresh message
whose stamp is the current time, and the callback contains no sleep. -/
theorem sensor_publish_fresh (topic : String) (t : Time) :
    SensorDummy.timer_callback topic t =
      [.publish topic { Image.mkDefault with stamp := t }] ∧
    (publishedMsgs (SensorDummy.timer_callback topic t)).map Image.stamp = [t] ∧
    (SensorDummy.timer_callback topic t).filter Effect.isSleep = [] :=
  ⟨rfl, rfl, rfl⟩

/-- C8: the `SubDependencyNode` output depends only on the primary-input
history: two runs whose event traces agree except in trigger-message
payloads produce identical states and identical effect lists (in
particular, identical published messages). -/
theorem trigger_payload_noninterference (pub_topic : String) (s : Option Image)
    (es1 es2 : List SubDependencyNode.Event)
    (h : List.Forall₂ SubDependencyNode.trigPayloadAgnostic es1 es2) :
    SubDependencyNode.run pub_topic s es1 = SubDependencyNode.run pub_topic s es2 := by
  induction h generalizing s with
  | nil => rfl
  | @cons a b l1 l2 hab htail ih =>
    cases a with
    | prim lat msg =>
      cases b with
      | prim lat' msg' =>
        obtain ⟨rfl, rfl⟩ := hab
        simp only [SubDependencyNode.run, SubDependencyNode.step,
          SubDependencyNode.subscription1_callback]
        rw [ih]
      | trig lat' msg' => exact absurd hab (by simp [SubDependencyNode.trigPayloadAgnostic])
    | trig lat msg =>
      cases b with
      | prim lat' msg' => exact absurd hab (by simp [SubDependencyNode.trigPayloadAgnostic])
      | trig lat' msg' =>
        obtain rfl : lat = lat' := hab
        cases s <;>
          simp only [SubDependencyNode.run, SubDependencyNode.step,
            SubDependencyNode.subscription2_callback] <;>
          rw [ih]

/-- C8 witness: two concrete traces differing only in the trigger payload
produce identical runs. -/
theorem trigger_payload_noninterference_witness :
    List.Forall₂ SubDependencyNode.trigPayloadAgnostic
      [.prim 1 { stamp := { sec := 2, nanosec := 3 }, data := [4] },
        .trig 5 { stamp := { sec := 6, nanosec := 7 }, data := [8] }]
      [.prim 1 { stamp := { sec := 2, nanosec := 3 }, data := [4] },
        .trig 5 { stamp := { sec := 9, nanosec := 9 }, data := [9, 9] }] ∧
    SubDependencyNode.run "/topic3" none
      [.prim 1 { stamp := { sec := 2, nanosec := 3 }, data := [4] },
        .trig 5 { stamp := { sec := 6, nanosec := 7 }, data := [8] }] =
    SubDependencyNode.run "/topic3" none
      [.prim 1 { stamp := { sec := 2, nanosec := 3 }, data := [4] },
        .trig 5 { stamp := { sec := 9, nanosec := 9 }, data := [9, 9] }] :=
  ⟨by constructor
      · exact ⟨rfl, rfl⟩
      · constructor
        · rfl
        · exact List.Forall₂.nil,
   trigger_payload_noninterference "/topic3" none _ _
     (by constructor
         · exact ⟨rfl, rfl⟩
         · constructor
           · rfl
           · exact List.Forall₂.nil)⟩

/-- C9: `main` assembles exactly six nodes wired as the pipeline
sensor (/topic1, 50 ms) → filter (/topic1 → /topic2) → message-driven
(/topic2 with trigger /drive → /topic3) → timer-driven (/topic3 → /topic4,
100 ms) → actuator (/topic4), with the trigger producer publishing /drive
every 100 ms, and returns 0 on clean shutdown. -/
theorem main_topology :
    mainNodes.length = 6 ∧
    (nodeNamed "sensor_dummy_node").map NodeSpec.pubTopics = some ["/topic1"] ∧
    (nodeNamed "sensor_dummy_node").bind NodeSpec.timerPeriodMs = some 50 ∧
    (nodeNamed "filter_node").map NodeSpec.subTopics = some ["/topic1"] ∧
    (nodeNamed "filter_node").map NodeSpec.pubTopics = some ["/topic2"] ∧
    (nodeNamed "message_driven_node").map NodeSpec.subTopics =
      some ["/topic2", "/drive"] ∧
    (nodeNamed "message_driven_node").map NodeSpec.pubTopics = some ["/topic3"] ∧
    (nodeNamed "timer_driven_node").map NodeSpec.subTopics = some ["/topic3"] ∧
    (nodeNamed "timer_driven_node").map NodeSpec.pubTopics = some ["/topic4"] ∧
    (nodeNamed "timer_driven_node").bind NodeSpec.timerPeriodMs = some 100 ∧
    (nodeNamed "actuator_dummy_node").map NodeSpec.subTopics = some ["/topic4"] ∧
    (nodeNamed "actuator_dummy_node").map NodeSpec.pubTopics = some [] ∧
    (nodeNamed "drive_node").map NodeSpec.pubTopics = some ["/drive"] ∧
    (nodeNamed "drive_node").bind NodeSpec.timerPeriodMs = some 100 ∧
    mainReturn = 0 := by
  exact ⟨rfl, rfl, rfl, rfl, rfl, rfl, rfl, rfl, rfl, rfl, rfl, rfl, rfl, rfl, rfl⟩

end EndToEndSample
